import Mathlib

/-!
Verification of the `ai_drawer` Telegram bot (`src/app/main.py`).

The single message handler of the bot, `process_media`, is embedded as a pure
function from an environment of external collaborators (Telegram file API,
HTTP GET, the PIL decode/re-encode pipeline, and the three OpenAI image
operations) and an incoming message, to the list of observable effects it
performs, in order.  Each external call that can raise a Python exception
is modelled as a function into `Except`; the `try/except` block of the
handler routes any failure to the single generic error reply.  The startup
guard of `main` is embedded as `mainStartup`.
-/

namespace AIDrawer

/-- Raw byte buffers (`bytes` / `BytesIO` contents) are modelled as lists
of naturals. -/
abbrev Bytes := List Nat

/-- One entry of `message.photo`: a Telegram `PhotoSize` object.  Only the
fields the handler can observe matter: an identifier for `get_file` and
the pixel dimensions of this variant. -/
structure PhotoRef where
  fileId : String
  width : Nat
  height : Nat
deriving Repr, DecidableEq

/-- Pixel count of a photo variant, the measure of its resolution. -/
def PhotoRef.pixels (p : PhotoRef) : Nat := p.width * p.height

/-- The parts of a Telegram `Message` that `process_media` reads:
`message.caption`, `message.text` (either may be absent), and the list
`message.photo` of size variants (empty when no photo is attached;
Telegram orders it by ascending resolution). -/
structure TgMessage where
  caption : Option String
  text : Option String
  photo : List PhotoRef
deriving Repr, DecidableEq

/-- The file tuple `("image.png", png_bytes, "image/png")` handed to the
OpenAI edit / variation calls. -/
structure ImageFile where
  name : String
  content : Bytes
  mime : String
deriving Repr, DecidableEq

/-- Keyword arguments of `openai_client.images.edit`. -/
structure EditParams where
  model : String
  prompt : String
  image : ImageFile
  n : Nat
  size : String
deriving Repr, DecidableEq

/-- Keyword arguments of `openai_client.images.create_variation`. -/
structure VariationParams where
  model : String
  image : ImageFile
  n : Nat
  size : String
deriving Repr, DecidableEq

/-- Keyword arguments of `openai_client.images.generate`. -/
structure GenerateParams where
  model : String
  prompt : String
  n : Nat
  size : String
  style : String
deriving Repr, DecidableEq

/-- One element of `response.data` in an OpenAI images response; the
handler reads only `.url`. -/
structure ResultItem where
  url : String
deriving Repr, DecidableEq

/-- An OpenAI images API response: `response.data` is a list of result
descriptors. -/
structure ApiResponse where
  data : List ResultItem
deriving Repr, DecidableEq

/-- Observable effects of one run of `process_media`, in program order. -/
inductive Event where
  | sendChatAction (action : String)
  | logInfo (msg : String)
  | getFileCall (p : PhotoRef)
  | httpGetCall (url : String)
  | editCall (ps : EditParams)
  | variationCall (ps : VariationParams)
  | generateCall (ps : GenerateParams)
  | logException (msg : String)
  | replyText (msg : String)
  | replyPhoto (content : Bytes)
deriving Repr, DecidableEq

/-- The external collaborators of the handler.  Each operation that can
raise in Python returns `Except String`:
`getFile` models `photo_size.get_file()` (yielding `file_obj.file_path`),
`httpGet` models `_download_file` (a `requests.get` plus
`raise_for_status`, yielding the body bytes),
`pilToPngRGBA` models `Image.open(buf).convert("RGBA")` followed by
`img.save(png_bytes, format="PNG")` (decode failures raise; on success it
yields the PNG re-encoding of the input), and the last three model the
OpenAI client calls. -/
structure Env where
  getFile : PhotoRef → Except String String
  httpGet : String → Except String Bytes
  pilToPngRGBA : Bytes → Except String Bytes
  imagesEdit : EditParams → Except String ApiResponse
  createVariation : VariationParams → Except String ApiResponse
  imagesGenerate : GenerateParams → Except String ApiResponse

/-- Python `str.strip()`: drop leading and trailing whitespace. -/
def pyStrip (s : String) : String :=
  ⟨((s.data.dropWhile Char.isWhitespace).reverse.dropWhile Char.isWhitespace).reverse⟩

/-- Python `a or b` on an optional string `a`: `None` and `""` are falsy. -/
def pyOrStr (o : Option String) (alt : String) : String :=
  match o with
  | none => alt
  | some s => if s = "" then alt else s

/-- Line 42: `prompt = message.caption or message.text or ""`. -/
def extractPrompt (m : TgMessage) : String :=
  pyOrStr m.caption (pyOrStr m.text "")

/-- The generic failure reply of the `except` clause (line 106). -/
def ERROR_TEXT : String := "🚨 Упс, что‑то пошло не так. Попробуй ещё раз позже!"

/-- The user-input guidance reply for an empty request (line 85). -/
def NEED_INPUT_TEXT : String := "Эээ… Мне нужен хотя бы текст или картинка!"

/-- Outcome of the branch-and-call part of the `try` block (lines 48-94):
either the handler returned early (guidance reply), or it obtained an API
`response`, or some step raised.  In each case the effects performed so
far are carried along. -/
inductive BodyStep where
  | earlyReturn (evs : List Event)
  | gotResponse (evs : List Event) (resp : ApiResponse)
  | failed (evs : List Event)
deriving Repr, DecidableEq

/-- Lines 49-80: the photo branch.  `best` is `message.photo[-1]`.
Downloads the attachment, re-encodes it via PIL, then calls edit (caption
present) or variation (no caption). -/
def photoBranch (env : Env) (prompt : String) (best : PhotoRef) : BodyStep :=
  let evs0 := [Event.logInfo ("Photo received. Caption: " ++ prompt),
               Event.getFileCall best]
  match env.getFile best with
  | .error _ => .failed evs0
  | .ok filePath =>
    let evs1 := evs0 ++ [Event.httpGetCall filePath]
    match env.httpGet filePath with
    | .error _ => .failed evs1
    | .ok rawBytes =>
      match env.pilToPngRGBA rawBytes with
      | .error _ => .failed evs1
      | .ok pngBytes =>
        let imageFile : ImageFile := ⟨"image.png", pngBytes, "image/png"⟩
        if prompt = "" then
          let ps : VariationParams := ⟨"gpt-image-1", imageFile, 1, "1024x1024"⟩
          let evs2 := evs1 ++ [Event.variationCall ps]
          match env.createVariation ps with
          | .error _ => .failed evs2
          | .ok resp => .gotResponse evs2 resp
        else
          let ps : EditParams := ⟨"gpt-image-1", prompt, imageFile, 1, "1024x1024"⟩
          let evs2 := evs1 ++ [Event.editCall ps]
          match env.imagesEdit ps with
          | .error _ => .failed evs2
          | .ok resp => .gotResponse evs2 resp

/-- Lines 82-94: the text-only branch.  Trims the prompt, replies with
guidance and returns when it is empty, otherwise calls generate. -/
def textBranch (env : Env) (prompt : String) : BodyStep :=
  let prompt1 := pyStrip prompt
  if prompt1 = "" then
    .earlyReturn [Event.replyText NEED_INPUT_TEXT]
  else
    let ps : GenerateParams := ⟨"gpt-image-1", prompt1, 1, "1024x1024", "vivid"⟩
    let evs := [Event.logInfo ("Prompt: " ++ prompt1), Event.generateCall ps]
    match env.imagesGenerate ps with
    | .error _ => .failed evs
    | .ok resp => .gotResponse evs resp

/-- Lines 48-94: `if message.photo: ... else: ...`.  The handler uses
`message.photo[-1]`, the last (highest-resolution) variant. -/
def selectAndCall (env : Env) (m : TgMessage) (prompt : String) : BodyStep :=
  match m.photo with
  | [] => textBranch env prompt
  | p :: rest => photoBranch env prompt (rest.getLastD p)

/-- The whole `try` block (lines 47-102): branch and call, then
`image_url = response.data[0].url` (an out-of-range index raises), log it,
download it, and reply with the photo.  Returns the effects performed and
whether an exception escaped to the handler. -/
def tryBodyRun (env : Env) (m : TgMessage) (prompt : String) : List Event × Bool :=
  match selectAndCall env m prompt with
  | .earlyReturn evs => (evs, false)
  | .failed evs => (evs, true)
  | .gotResponse evs resp =>
    match resp.data with
    | [] => (evs, true)
    | item :: _ =>
      let evs1 := evs ++ [Event.logInfo ("Generated image URL: " ++ item.url),
                          Event.httpGetCall item.url]
      match env.httpGet item.url with
      | .error _ => (evs1, true)
      | .ok imageBytes => (evs1 ++ [Event.replyPhoto imageBytes], false)

/-- Lines 40-106: the full handler.  Extracts the prompt, sends the
upload-photo chat action, runs the `try` block, and on failure logs the
exception and sends the single generic error reply. -/
def process_media (env : Env) (m : TgMessage) : List Event :=
  let prompt := extractPrompt m
  let pre := [Event.sendChatAction "upload_photo"]
  match tryBodyRun env m prompt with
  | (evs, false) => pre ++ evs
  | (evs, true) =>
      pre ++ evs ++ [Event.logException "Generation failed",
                     Event.replyText ERROR_TEXT]

/-- Observable startup effects of `main` (lines 109-130). -/
inductive StartupEvent where
  | logError (msg : String)
  | buildApplication (token : String)
  | addCommandHandler (cmd : String)
  | addMessageHandler
  | logInfo (msg : String)
  | initializeApp
  | startApp
  | startPolling
deriving Repr, DecidableEq

/-- Python truthiness of `os.getenv(...)`: `None` and `""` are falsy. -/
def pyTruthyStr (o : Option String) : Bool :=
  match o with
  | none => false
  | some s => s ≠ ""

/-- The startup error logged when credentials are missing (line 113). -/
def MISSING_ENV_TEXT : String :=
  "▶️ Перед стартом задай переменные окружения: OPENAI_API_KEY и TELEGRAM_BOT_TOKEN"

/-- Lines 109-130 of `main`: the credential guard, then application
construction, handler registration, startup, and polling. -/
def mainStartup (botToken openaiKey : Option String) : List StartupEvent :=
  if !pyTruthyStr botToken || !pyTruthyStr openaiKey then
    [StartupEvent.logError MISSING_ENV_TEXT]
  else
    [StartupEvent.buildApplication (botToken.getD ""),
     StartupEvent.addCommandHandler "start",
     StartupEvent.addMessageHandler,
     StartupEvent.logInfo "Bot up and running… Press Ctrl‑C to stop.",
     StartupEvent.initializeApp,
     StartupEvent.startApp,
     StartupEvent.startPolling]

/-- Is an event one of the three remote generation calls? -/
def isRemoteCall : Event → Bool
  | .editCall _ => true
  | .variationCall _ => true
  | .generateCall _ => true
  | _ => false

/-- The remote generation calls occurring in a trace, in order. -/
def remoteCalls (t : List Event) : List Event := t.filter isRemoteCall

/-- The photo variant passed to `get_file`, read off the trace. -/
def firstGetFile (t : List Event) : Option PhotoRef :=
  t.findSome? fun e => match e with | .getFileCall p => some p | _ => none

/-- The effects carried by a `BodyStep`, whatever its outcome. -/
def BodyStep.evs : BodyStep → List Event
  | .earlyReturn evs => evs
  | .gotResponse evs _ => evs
  | .failed evs => evs

/-- Invariant of every event the handler can emit: a remote generation
call always asks for one 1024x1024 image of model `gpt-image-1`, a
generate call carries the `vivid` style, and an edit or variation call
carries the synthetic PNG file produced by the PIL pipeline from some
downloaded buffer. -/
def eventWellFormed (env : Env) : Event → Prop
  | .editCall ps =>
      ps.model = "gpt-image-1" ∧ ps.n = 1 ∧ ps.size = "1024x1024" ∧
      ps.image.name = "image.png" ∧ ps.image.mime = "image/png" ∧
      ∃ p fp raw, env.getFile p = Except.ok fp ∧ env.httpGet fp = Except.ok raw ∧
        env.pilToPngRGBA raw = Except.ok ps.image.content
  | .variationCall ps =>
      ps.model = "gpt-image-1" ∧ ps.n = 1 ∧ ps.size = "1024x1024" ∧
      ps.image.name = "image.png" ∧ ps.image.mime = "image/png" ∧
      ∃ p fp raw, env.getFile p = Except.ok fp ∧ env.httpGet fp = Except.ok raw ∧
        env.pilToPngRGBA raw = Except.ok ps.image.content
  | .generateCall ps =>
      ps.model = "gpt-image-1" ∧ ps.n = 1 ∧ ps.size = "1024x1024" ∧
      ps.style = "vivid"
  | _ => True

/-- Events that address the user or the server log from the error handler:
text replies, photo replies, and exception logs. -/
def isReplyEvent : Event → Bool
  | .replyText _ => true
  | .replyPhoto _ => true
  | .logException _ => true
  | _ => false

/-- Does a trace event carry the generic failure reply? -/
def isGenericErrorReply : Event → Bool
  | .replyText msg => msg == ERROR_TEXT
  | _ => false

/-- A stub environment in which every external call succeeds: `get_file`
resolves to `"fileurl"`, a GET of `"resulturl"` yields the bytes `[7, 7]`
and any other GET yields `[1, 2, 3]`, the PIL pipeline yields `[9, 9]`,
and every OpenAI call returns one result whose URL is `"resulturl"`. -/
def stubEnv : Env where
  getFile := fun _ => .ok "fileurl"
  httpGet := fun u => .ok (if u = "resulturl" then [7, 7] else [1, 2, 3])
  pilToPngRGBA := fun _ => .ok [9, 9]
  imagesEdit := fun _ => .ok ⟨[⟨"resulturl"⟩]⟩
  createVariation := fun _ => .ok ⟨[⟨"resulturl"⟩]⟩
  imagesGenerate := fun _ => .ok ⟨[⟨"resulturl"⟩]⟩

/-- A stub environment in which every external call raises. -/
def failEnv : Env where
  getFile := fun _ => .error "boom"
  httpGet := fun _ => .error "boom"
  pilToPngRGBA := fun _ => .error "boom"
  imagesEdit := fun _ => .error "boom"
  createVariation := fun _ => .error "boom"
  imagesGenerate := fun _ => .error "boom"

/-- A low-resolution photo variant. -/
def photoSmall : PhotoRef := ⟨"small", 90, 90⟩

/-- A high-resolution photo variant. -/
def photoBig : PhotoRef := ⟨"big", 1280, 960⟩

/-- Photo with caption "make it blue": the edit scenario. -/
def msgEditSample : TgMessage := ⟨some "make it blue", none, [photoSmall, photoBig]⟩

/-- Photo without caption or text: the variation scenario. -/
def msgVariationSample : TgMessage := ⟨none, none, [photoSmall, photoBig]⟩

/-- Text "a red fox", no photo: the generate scenario. -/
def msgGenerateSample : TgMessage := ⟨none, some "a red fox", []⟩

/-- Whitespace-only text, no photo: the invalid-request scenario. -/
def msgEmptySample : TgMessage := ⟨none, some "   ", []⟩

/-- Photo with a whitespace-only caption " ". -/
def msgSpaceCaptionSample : TgMessage := ⟨some " ", none, [photoBig]⟩

/-- The edit call the stub environment receives for `msgEditSample`. -/
def editParamsSample : EditParams :=
  ⟨"gpt-image-1", "make it blue", ⟨"image.png", [9, 9], "image/png"⟩, 1, "1024x1024"⟩

/-- The variation call the stub environment receives for `msgVariationSample`. -/
def varParamsSample : VariationParams :=
  ⟨"gpt-image-1", ⟨"image.png", [9, 9], "image/png"⟩, 1, "1024x1024"⟩

/-- The generate call the stub environment receives for `msgGenerateSample`. -/
def genParamsSample : GenerateParams :=
  ⟨"gpt-image-1", "a red fox", 1, "1024x1024", "vivid"⟩

/-! ### Trace-shape lemmas -/

/-- On the successful edit path (photo attached, non-empty prompt, all
preparatory steps succeed) the only remote generation call in the trace is
one edit call carrying the normalized PNG file. -/
lemma remoteCalls_photo_edit (env : Env) (m : TgMessage) (p : PhotoRef)
    (rest : List PhotoRef) (fp : String) (raw png : Bytes)
    (hp : m.photo = p :: rest) (hpr : extractPrompt m ≠ "")
    (h1 : env.getFile (rest.getLastD p) = .ok fp)
    (h2 : env.httpGet fp = .ok raw)
    (h3 : env.pilToPngRGBA raw = .ok png) :
    remoteCalls (process_media env m) =
      [Event.editCall ⟨"gpt-image-1", extractPrompt m,
        ⟨"image.png", png, "image/png"⟩, 1, "1024x1024"⟩] := by
  unfold process_media tryBodyRun selectAndCall photoBranch
  rw [hp]
  simp only [h1, h2, h3, if_neg hpr]
  rcases he : env.imagesEdit _ with e | resp
  · simp [remoteCalls, isRemoteCall]
  · rcases resp with ⟨_ | ⟨item, items⟩⟩
    · simp [remoteCalls, isRemoteCall]
    · rcases hg : env.httpGet item.url with e2 | bs <;>
        simp [remoteCalls, isRemoteCall, hg]

/-- On the successful variation path (photo attached, empty prompt, all
preparatory steps succeed) the only remote generation call in the trace is
one variation call carrying the normalized PNG file. -/
lemma remoteCalls_photo_variation (env : Env) (m : TgMessage) (p : PhotoRef)
    (rest : List PhotoRef) (fp : String) (raw png : Bytes)
    (hp : m.photo = p :: rest) (hpr : extractPrompt m = "")
    (h1 : env.getFile (rest.getLastD p) = .ok fp)
    (h2 : env.httpGet fp = .ok raw)
    (h3 : env.pilToPngRGBA raw = .ok png) :
    remoteCalls (process_media env m) =
      [Event.variationCall ⟨"gpt-image-1",
        ⟨"image.png", png, "image/png"⟩, 1, "1024x1024"⟩] := by
  unfold process_media tryBodyRun selectAndCall photoBranch
  rw [hp]
  simp only [h1, h2, h3, if_pos hpr, hpr]
  rcases he : env.createVariation _ with e | resp
  · simp [remoteCalls, isRemoteCall]
  · rcases resp with ⟨_ | ⟨item, items⟩⟩
    · simp [remoteCalls, isRemoteCall]
    · rcases hg : env.httpGet item.url with e2 | bs <;>
        simp [remoteCalls, isRemoteCall, hg]

/-- On the text path with a prompt that is non-empty after trimming, the
only remote generation call in the trace is one generate call with the
trimmed prompt, regardless of how the environment answers. -/
lemma remoteCalls_text_generate (env : Env) (m : TgMessage)
    (hp : m.photo = []) (hpr : pyStrip (extractPrompt m) ≠ "") :
    remoteCalls (process_media env m) =
      [Event.generateCall ⟨"gpt-image-1", pyStrip (extractPrompt m),
        1, "1024x1024", "vivid"⟩] := by
  unfold process_media tryBodyRun selectAndCall textBranch
  rw [hp]
  simp only [if_neg hpr]
  rcases he : env.imagesGenerate _ with e | resp
  · simp [remoteCalls, isRemoteCall]
  · rcases resp with ⟨_ | ⟨item, items⟩⟩
    · simp [remoteCalls, isRemoteCall]
    · rcases hg : env.httpGet item.url with e2 | bs <;>
        simp [remoteCalls, isRemoteCall, hg]

lemma photoBranch_wf (env : Env) (prompt : String) (best : PhotoRef) :
    ∀ e ∈ (photoBranch env prompt best).evs, eventWellFormed env e := by
  intro e he
  unfold photoBranch at he
  rcases h1 : env.getFile best with er | fp <;> simp only [h1] at he
  · simp only [BodyStep.evs, List.mem_cons, List.not_mem_nil, or_false] at he
    rcases he with rfl | rfl <;> simp [eventWellFormed]
  rcases h2 : env.httpGet fp with er | raw <;> simp only [h2] at he
  · simp only [BodyStep.evs, List.cons_append, List.nil_append, List.mem_cons,
      List.not_mem_nil, or_false] at he
    rcases he with rfl | rfl | rfl <;> simp [eventWellFormed]
  rcases h3 : env.pilToPngRGBA raw with er | png <;> simp only [h3] at he
  · simp only [BodyStep.evs, List.cons_append, List.nil_append, List.mem_cons,
      List.not_mem_nil, or_false] at he
    rcases he with rfl | rfl | rfl <;> simp [eventWellFormed]
  by_cases hpr : prompt = ""
  · rw [if_pos hpr] at he
    rcases h4 : env.createVariation
        ⟨"gpt-image-1", ⟨"image.png", png, "image/png"⟩, 1, "1024x1024"⟩
        with er | resp <;>
      simp only [h4, BodyStep.evs, List.cons_append, List.nil_append,
        List.mem_cons, List.not_mem_nil, or_false] at he <;>
      rcases he with rfl | rfl | rfl | rfl <;>
      simp [eventWellFormed] <;>
      first
      | exact ⟨best, fp, raw, h1, h2, h3⟩
      | exact ⟨best, fp, h1, raw, h2, h3⟩
  · rw [if_neg hpr] at he
    rcases h4 : env.imagesEdit
        ⟨"gpt-image-1", prompt, ⟨"image.png", png, "image/png"⟩, 1, "1024x1024"⟩
        with er | resp <;>
      simp only [h4, BodyStep.evs, List.cons_append, List.nil_append,
        List.mem_cons, List.not_mem_nil, or_false] at he <;>
      rcases he with rfl | rfl | rfl | rfl <;>
      simp [eventWellFormed] <;>
      first
      | exact ⟨best, fp, raw, h1, h2, h3⟩
      | exact ⟨best, fp, h1, raw, h2, h3⟩

lemma textBranch_wf (env : Env) (prompt : String) :
    ∀ e ∈ (textBranch env prompt).evs, eventWellFormed env e := by
  intro e he
  unfold textBranch at he
  by_cases hpr : pyStrip prompt = ""
  · rw [if_pos hpr] at he
    cases e <;> simp_all [BodyStep.evs, eventWellFormed]
  · rw [if_neg hpr] at he
    rcases h4 : env.imagesGenerate
        ⟨"gpt-image-1", pyStrip prompt, 1, "1024x1024", "vivid"⟩ with er | resp <;>
      simp only [h4, BodyStep.evs, List.cons_append, List.nil_append,
        List.mem_cons, List.not_mem_nil, or_false] at he <;>
      rcases he with rfl | rfl <;> simp [eventWellFormed]

lemma selectAndCall_wf (env : Env) (m : TgMessage) (prompt : String) :
    ∀ e ∈ (selectAndCall env m prompt).evs, eventWellFormed env e := by
  intro e he
  unfold selectAndCall at he
  rcases hp : m.photo with _ | ⟨p, rest⟩ <;> simp only [hp] at he
  · exact textBranch_wf env prompt e he
  · exact photoBranch_wf env prompt (rest.getLastD p) e he

lemma tryBody_wf (env : Env) (m : TgMessage) (prompt : String) :
    ∀ e ∈ (tryBodyRun env m prompt).1, eventWellFormed env e := by
  intro e he
  unfold tryBodyRun at he
  rcases hs : selectAndCall env m prompt with evs | ⟨evs, resp⟩ | evs <;>
    simp only [hs] at he
  · exact selectAndCall_wf env m prompt e (by rw [hs]; exact he)
  · rcases resp with ⟨_ | ⟨item, items⟩⟩
    · exact selectAndCall_wf env m prompt e (by rw [hs]; exact he)
    · rcases hg : env.httpGet item.url with er | bs <;>
        simp only [hg, List.append_assoc, List.cons_append, List.nil_append,
          List.mem_append, List.mem_cons, List.not_mem_nil, or_false] at he
      · rcases he with he | rfl | rfl
        · exact selectAndCall_wf env m prompt e (by rw [hs]; exact he)
        · simp [eventWellFormed]
        · simp [eventWellFormed]
      · rcases he with he | rfl | rfl | rfl
        · exact selectAndCall_wf env m prompt e (by rw [hs]; exact he)
        · simp [eventWellFormed]
        · simp [eventWellFormed]
        · simp [eventWellFormed]
  · exact selectAndCall_wf env m prompt e (by rw [hs]; exact he)

lemma process_media_wf (env : Env) (m : TgMessage) :
    ∀ e ∈ process_media env m, eventWellFormed env e := by
  intro e he
  unfold process_media at he
  rcases ht : tryBodyRun env m (extractPrompt m) with ⟨evs, b⟩
  rcases b <;>
    simp only [ht, List.append_assoc, List.cons_append, List.nil_append,
      List.mem_append, List.mem_cons, List.not_mem_nil, or_false] at he
  · rcases he with rfl | he
    · simp [eventWellFormed]
    · exact tryBody_wf env m (extractPrompt m) e (by rw [ht]; exact he)
  · rcases he with rfl | he | rfl | rfl
    · simp [eventWellFormed]
    · exact tryBody_wf env m (extractPrompt m) e (by rw [ht]; exact he)
    · simp [eventWellFormed]
    · simp [eventWellFormed]

lemma photoBranch_noReply (env : Env) (prompt : String) (best : PhotoRef) :
    ((photoBranch env prompt best).evs.all fun e => !isReplyEvent e) = true := by
  unfold photoBranch
  rcases h1 : env.getFile best with er | fp <;> simp only [h1]
  · simp [BodyStep.evs, isReplyEvent]
  rcases h2 : env.httpGet fp with er | raw <;> simp only [h2]
  · simp [BodyStep.evs, isReplyEvent]
  rcases h3 : env.pilToPngRGBA raw with er | png <;> simp only [h3]
  · simp [BodyStep.evs, isReplyEvent]
  by_cases hpr : prompt = ""
  · rw [if_pos hpr]
    rcases h4 : env.createVariation
        ⟨"gpt-image-1", ⟨"image.png", png, "image/png"⟩, 1, "1024x1024"⟩
        with er | resp <;>
      simp [h4, BodyStep.evs, isReplyEvent]
  · rw [if_neg hpr]
    rcases h4 : env.imagesEdit
        ⟨"gpt-image-1", prompt, ⟨"image.png", png, "image/png"⟩, 1, "1024x1024"⟩
        with er | resp <;>
      simp [h4, BodyStep.evs, isReplyEvent]

lemma photoBranch_remote_count (env : Env) (prompt : String) (best : PhotoRef) :
    (photoBranch env prompt best).evs.countP isRemoteCall ≤ 1 := by
  unfold photoBranch
  rcases h1 : env.getFile best with er | fp <;> simp only [h1]
  · simp [BodyStep.evs, isRemoteCall, List.countP_cons, List.countP_nil]
  rcases h2 : env.httpGet fp with er | raw <;> simp only [h2]
  · simp [BodyStep.evs, isRemoteCall, List.countP_cons, List.countP_nil]
  rcases h3 : env.pilToPngRGBA raw with er | png <;> simp only [h3]
  · simp [BodyStep.evs, isRemoteCall, List.countP_cons, List.countP_nil]
  by_cases hpr : prompt = ""
  · rw [if_pos hpr]
    rcases h4 : env.createVariation
        ⟨"gpt-image-1", ⟨"image.png", png, "image/png"⟩, 1, "1024x1024"⟩
        with er | resp <;>
      simp [h4, BodyStep.evs, isRemoteCall, List.countP_cons, List.countP_nil]
  · rw [if_neg hpr]
    rcases h4 : env.imagesEdit
        ⟨"gpt-image-1", prompt, ⟨"image.png", png, "image/png"⟩, 1, "1024x1024"⟩
        with er | resp <;>
      simp [h4, BodyStep.evs, isRemoteCall, List.countP_cons, List.countP_nil]

lemma textBranch_noReply (env : Env) (prompt : String) (evs : List Event)
    (h : textBranch env prompt = .failed evs ∨
      ∃ r, textBranch env prompt = .gotResponse evs r) :
    (evs.all fun e => !isReplyEvent e) = true := by
  unfold textBranch at h
  by_cases hpr : pyStrip prompt = ""
  · rw [if_pos hpr] at h
    rcases h with h | ⟨r, h⟩ <;> simp at h
  · rw [if_neg hpr] at h
    rcases h4 : env.imagesGenerate
        ⟨"gpt-image-1", pyStrip prompt, 1, "1024x1024", "vivid"⟩ with er | resp <;>
      simp [h4] at h <;> subst h <;> simp [isReplyEvent]

lemma textBranch_remote_count (env : Env) (prompt : String) :
    (textBranch env prompt).evs.countP isRemoteCall ≤ 1 := by
  unfold textBranch
  by_cases hpr : pyStrip prompt = ""
  · rw [if_pos hpr]
    simp [BodyStep.evs, isRemoteCall, List.countP_cons, List.countP_nil]
  · rw [if_neg hpr]
    rcases h4 : env.imagesGenerate
        ⟨"gpt-image-1", pyStrip prompt, 1, "1024x1024", "vivid"⟩ with er | resp <;>
      simp [h4, BodyStep.evs, isRemoteCall, List.countP_cons, List.countP_nil]

lemma selectAndCall_remote_count (env : Env) (m : TgMessage) (prompt : String) :
    (selectAndCall env m prompt).evs.countP isRemoteCall ≤ 1 := by
  unfold selectAndCall
  rcases hp : m.photo with _ | ⟨p, rest⟩
  · exact textBranch_remote_count env prompt
  · exact photoBranch_remote_count env prompt (rest.getLastD p)

lemma selectAndCall_noReply (env : Env) (m : TgMessage) (prompt : String)
    (evs : List Event)
    (h : selectAndCall env m prompt = .failed evs ∨
      ∃ r, selectAndCall env m prompt = .gotResponse evs r) :
    (evs.all fun e => !isReplyEvent e) = true := by
  unfold selectAndCall at h
  rcases hp : m.photo with _ | ⟨p, rest⟩ <;> simp only [hp] at h
  · exact textBranch_noReply env prompt evs h
  · have hall := photoBranch_noReply env prompt (rest.getLastD p)
    rcases h with h | ⟨r, h⟩ <;> rw [h] at hall <;>
      simpa [BodyStep.evs] using hall

lemma tryBody_failed_noReply (env : Env) (m : TgMessage) (prompt : String)
    (hf : (tryBodyRun env m prompt).2 = true) :
    ((tryBodyRun env m prompt).1.all fun e => !isReplyEvent e) = true := by
  unfold tryBodyRun at hf ⊢
  rcases hs : selectAndCall env m prompt with evs | ⟨evs, resp⟩ | evs <;>
    simp only [hs] at hf ⊢
  · simp at hf
  · rcases resp with ⟨_ | ⟨item, items⟩⟩
    · exact selectAndCall_noReply env m prompt evs (Or.inr ⟨⟨[]⟩, hs⟩)
    · rcases hg : env.httpGet item.url with er | bs <;> simp only [hg] at hf ⊢
      · have hsel := selectAndCall_noReply env m prompt evs (Or.inr ⟨⟨item :: items⟩, hs⟩)
        simp only [List.all_append, List.all_cons, List.all_nil, hsel,
          Bool.true_and, Bool.and_true]
        simp [isReplyEvent]
      · simp at hf
  · exact selectAndCall_noReply env m prompt evs (Or.inl hs)

lemma tryBody_remote_count (env : Env) (m : TgMessage) (prompt : String) :
    (tryBodyRun env m prompt).1.countP isRemoteCall ≤ 1 := by
  have hsel := selectAndCall_remote_count env m prompt
  unfold tryBodyRun
  rcases hs : selectAndCall env m prompt with evs | ⟨evs, resp⟩ | evs <;>
    rw [hs] at hsel <;> simp only [BodyStep.evs] at hsel
  · simpa using hsel
  · rcases resp with ⟨_ | ⟨item, items⟩⟩
    · simpa using hsel
    · rcases hg : env.httpGet item.url with er | bs <;> simp only [hg] <;>
        simpa [List.countP_append, List.countP_cons, isRemoteCall] using hsel
  · simpa using hsel

lemma process_media_remote_count (env : Env) (m : TgMessage) :
    (remoteCalls (process_media env m)).length ≤ 1 := by
  have htb := tryBody_remote_count env m (extractPrompt m)
  unfold remoteCalls process_media
  rw [← List.countP_eq_length_filter]
  rcases ht : tryBodyRun env m (extractPrompt m) with ⟨evs, b⟩
  rw [ht] at htb; simp only at htb
  rcases b <;> simp only [ht] <;>
    simpa [List.countP_append, List.countP_cons, isRemoteCall] using htb

/-- The last element of a list sorted by ascending pixel count bounds
every element: `photo[-1]` is the highest-resolution variant. -/
lemma getLastD_pixels_max (l : List PhotoRef) :
    ∀ p : PhotoRef, (p :: l).Pairwise (fun a b => a.pixels ≤ b.pixels) →
      ∀ q ∈ p :: l, q.pixels ≤ (l.getLastD p).pixels := by
  induction l with
  | nil =>
    intro p _ q hq
    rw [List.mem_singleton] at hq
    subst hq
    simp
  | cons a l2 ih =>
    intro p hsort q hq
    rw [List.getLastD_cons]
    rcases List.pairwise_cons.mp hsort with ⟨hpa, htail⟩
    rcases List.mem_cons.mp hq with hqp | hq2
    · subst hqp
      exact Nat.le_trans (hpa a (List.mem_cons_self a l2))
        (ih a htail a (List.mem_cons_self a l2))
    · exact ih a htail q hq2

/-- Whenever a photo is attached, the variant handed to `get_file` (the
only one ever downloaded) is `photo[-1]`. -/
lemma firstGetFile_photo (env : Env) (m : TgMessage) (p : PhotoRef)
    (rest : List PhotoRef) (hp : m.photo = p :: rest) :
    firstGetFile (process_media env m) = some (rest.getLastD p) := by
  unfold process_media tryBodyRun selectAndCall photoBranch
  simp only [hp]
  rcases h1 : env.getFile (rest.getLastD p) with er | fp <;> simp only [h1]
  · simp [firstGetFile, List.findSome?_cons]
  rcases h2 : env.httpGet fp with er | raw <;> simp only [h2]
  · simp [firstGetFile, List.findSome?_cons]
  rcases h3 : env.pilToPngRGBA raw with er | png <;> simp only [h3]
  · simp [firstGetFile, List.findSome?_cons]
  by_cases hpr : extractPrompt m = ""
  · rw [if_pos hpr]
    rcases h4 : env.createVariation
        ⟨"gpt-image-1", ⟨"image.png", png, "image/png"⟩, 1, "1024x1024"⟩
        with er | resp <;> simp only [h4]
    · simp [firstGetFile, List.findSome?_cons]
    · rcases resp with ⟨_ | ⟨item, items⟩⟩
      · simp [firstGetFile, List.findSome?_cons]
      · rcases hg : env.httpGet item.url with er | bs <;> simp only [hg] <;>
          simp [firstGetFile, List.findSome?_cons]
  · rw [if_neg hpr]
    rcases h4 : env.imagesEdit
        ⟨"gpt-image-1", extractPrompt m, ⟨"image.png", png, "image/png"⟩,
          1, "1024x1024"⟩
        with er | resp <;> simp only [h4]
    · simp [firstGetFile, List.findSome?_cons]
    · rcases resp with ⟨_ | ⟨item, items⟩⟩
      · simp [firstGetFile, List.findSome?_cons]
      · rcases hg : env.httpGet item.url with er | bs <;> simp only [hg] <;>
          simp [firstGetFile, List.findSome?_cons]

/-! ### Claim theorems -/

/-- C1: Mode selection is a total three-way branch on the request shape.
With a photo and a non-empty prompt the handler invokes exactly one remote
generation call, the edit operation; with a photo and an empty prompt
exactly one, the variation operation; with no photo and a prompt non-empty
after stripping exactly one, the generate operation.  The photo cases are
stated under an environment whose download and decode steps succeed, so
that the remote call is reached (the spec verifies them with stub
clients). -/
theorem mode_selection_three_way (env : Env) (m : TgMessage) (p : PhotoRef)
    (rest : List PhotoRef) (fp : String) (raw png : Bytes) :
    (m.photo = p :: rest → extractPrompt m ≠ "" →
      env.getFile (rest.getLastD p) = .ok fp →
      env.httpGet fp = .ok raw → env.pilToPngRGBA raw = .ok png →
      remoteCalls (process_media env m) =
        [Event.editCall ⟨"gpt-image-1", extractPrompt m,
          ⟨"image.png", png, "image/png"⟩, 1, "1024x1024"⟩]) ∧
    (m.photo = p :: rest → extractPrompt m = "" →
      env.getFile (rest.getLastD p) = .ok fp →
      env.httpGet fp = .ok raw → env.pilToPngRGBA raw = .ok png →
      remoteCalls (process_media env m) =
        [Event.variationCall ⟨"gpt-image-1",
          ⟨"image.png", png, "image/png"⟩, 1, "1024x1024"⟩]) ∧
    (m.photo = [] → pyStrip (extractPrompt m) ≠ "" →
      remoteCalls (process_media env m) =
        [Event.generateCall ⟨"gpt-image-1", pyStrip (extractPrompt m),
          1, "1024x1024", "vivid"⟩]) :=
  ⟨fun hp hpr h1 h2 h3 =>
      remoteCalls_photo_edit env m p rest fp raw png hp hpr h1 h2 h3,
   fun hp hpr h1 h2 h3 =>
      remoteCalls_photo_variation env m p rest fp raw png hp hpr h1 h2 h3,
   fun hp hpr => remoteCalls_text_generate env m hp hpr⟩

/-- Witness for C1: the three sample scenarios against the stub
environment, hypotheses discharged by evaluation. -/
theorem mode_selection_three_way_witness :
    (remoteCalls (process_media stubEnv msgEditSample) =
      [Event.editCall ⟨"gpt-image-1", extractPrompt msgEditSample,
        ⟨"image.png", [9, 9], "image/png"⟩, 1, "1024x1024"⟩]) ∧
    (remoteCalls (process_media stubEnv msgVariationSample) =
      [Event.variationCall ⟨"gpt-image-1",
        ⟨"image.png", [9, 9], "image/png"⟩, 1, "1024x1024"⟩]) ∧
    (remoteCalls (process_media stubEnv msgGenerateSample) =
      [Event.generateCall ⟨"gpt-image-1", pyStrip (extractPrompt msgGenerateSample),
        1, "1024x1024", "vivid"⟩]) :=
  ⟨(mode_selection_three_way stubEnv msgEditSample photoSmall [photoBig]
      "fileurl" [1, 2, 3] [9, 9]).1 rfl (by decide) rfl rfl rfl,
   (mode_selection_three_way stubEnv msgVariationSample photoSmall [photoBig]
      "fileurl" [1, 2, 3] [9, 9]).2.1 rfl (by decide) rfl rfl rfl,
   (mode_selection_three_way stubEnv msgGenerateSample photoSmall [photoBig]
      "fileurl" [1, 2, 3] [9, 9]).2.2 rfl (by decide)⟩

/-- C2: with no photo and a prompt that strips to empty, the handler sends
only the status action and the guidance reply: no remote generation call
and no HTTP fetch of any kind occur, for every environment. -/
theorem empty_request_guidance (env : Env) (m : TgMessage)
    (hp : m.photo = []) (hpr : pyStrip (extractPrompt m) = "") :
    process_media env m =
      [Event.sendChatAction "upload_photo", Event.replyText NEED_INPUT_TEXT] ∧
    remoteCalls (process_media env m) = [] ∧
    ∀ u, Event.httpGetCall u ∉ process_media env m := by
  have hmain : process_media env m =
      [Event.sendChatAction "upload_photo", Event.replyText NEED_INPUT_TEXT] := by
    unfold process_media tryBodyRun selectAndCall textBranch
    simp [hp, hpr]
  exact ⟨hmain, by simp [hmain, remoteCalls, isRemoteCall],
    fun u => by simp [hmain]⟩

/-- Witness for C2: whitespace-only text message against the all-failing
environment — the guidance reply is sent without touching it. -/
theorem empty_request_guidance_witness :
    msgEmptySample.photo = [] ∧ pyStrip (extractPrompt msgEmptySample) = "" ∧
    process_media failEnv msgEmptySample =
      [Event.sendChatAction "upload_photo", Event.replyText NEED_INPUT_TEXT] :=
  ⟨rfl, by decide,
   (empty_request_guidance failEnv msgEmptySample rfl (by decide)).1⟩

/-- C4: once the branch obtains an API response whose first result carries
a URL, the handler performs exactly one follow-up fetch of that URL and
replies with the fetched bytes unchanged: the whole trace is the branch
events followed by the URL log, the single fetch, and the photo reply. -/
theorem result_url_fetched_and_forwarded (env : Env) (m : TgMessage)
    (evs : List Event) (respData : List ResultItem) (item : ResultItem)
    (items : List ResultItem) (bs : Bytes)
    (hs : selectAndCall env m (extractPrompt m) = .gotResponse evs ⟨respData⟩)
    (hd : respData = item :: items)
    (hg : env.httpGet item.url = .ok bs) :
    process_media env m =
      Event.sendChatAction "upload_photo" ::
        (evs ++ [Event.logInfo ("Generated image URL: " ++ item.url),
                 Event.httpGetCall item.url, Event.replyPhoto bs]) := by
  subst hd
  unfold process_media tryBodyRun
  simp only [hs, hg]
  simp

/-- Witness for C4: the generate scenario against the stub environment;
the stub returns URL `"resulturl"`, the handler fetches it once and
forwards the bytes `[7, 7]`. -/
theorem result_url_fetched_and_forwarded_witness :
    selectAndCall stubEnv msgGenerateSample (extractPrompt msgGenerateSample) =
      .gotResponse
        [Event.logInfo "Prompt: a red fox", Event.generateCall genParamsSample]
        ⟨[⟨"resulturl"⟩]⟩ ∧
    process_media stubEnv msgGenerateSample =
      Event.sendChatAction "upload_photo" ::
        ([Event.logInfo "Prompt: a red fox", Event.generateCall genParamsSample] ++
         [Event.logInfo ("Generated image URL: " ++ "resulturl"),
          Event.httpGetCall "resulturl", Event.replyPhoto [7, 7]]) :=
  ⟨by decide,
   result_url_fetched_and_forwarded stubEnv msgGenerateSample
     [Event.logInfo "Prompt: a red fox", Event.generateCall genParamsSample]
     [⟨"resulturl"⟩] ⟨"resulturl"⟩ [] [7, 7] (by decide) rfl rfl⟩

/-- C7: if either credential is absent at startup, `main` logs the error
and returns before doing anything else: no application is built, no
handler is registered, and polling never starts. -/
theorem missing_credentials_abort (botToken openaiKey : Option String)
    (h : botToken = none ∨ openaiKey = none) :
    mainStartup botToken openaiKey = [StartupEvent.logError MISSING_ENV_TEXT] ∧
    (∀ t, StartupEvent.buildApplication t ∉ mainStartup botToken openaiKey) ∧
    (∀ c, StartupEvent.addCommandHandler c ∉ mainStartup botToken openaiKey) ∧
    StartupEvent.addMessageHandler ∉ mainStartup botToken openaiKey ∧
    StartupEvent.startPolling ∉ mainStartup botToken openaiKey := by
  have hmain : mainStartup botToken openaiKey =
      [StartupEvent.logError MISSING_ENV_TEXT] := by
    rcases h with rfl | rfl <;> unfold mainStartup <;> simp [pyTruthyStr]
  refine ⟨hmain, ?_, ?_, ?_, ?_⟩ <;> simp [hmain]

/-- Witness for C7: a missing bot token aborts startup with the logged
error. -/
theorem missing_credentials_abort_witness :
    mainStartup none (some "sk-test") = [StartupEvent.logError MISSING_ENV_TEXT] :=
  (missing_credentials_abort none (some "sk-test") (Or.inl rfl)).1

/-- C9: stripping is applied only in the no-photo branch.  A photo whose
caption is non-empty whitespace selects edit mode, and the edit call
receives the caption untrimmed. -/
theorem whitespace_caption_selects_edit (env : Env) (m : TgMessage)
    (p : PhotoRef) (rest : List PhotoRef) (c fp : String) (raw png : Bytes)
    (hp : m.photo = p :: rest) (hc : m.caption = some c) (hne : c ≠ "")
    (hws : pyStrip c = "")
    (h1 : env.getFile (rest.getLastD p) = .ok fp)
    (h2 : env.httpGet fp = .ok raw) (h3 : env.pilToPngRGBA raw = .ok png) :
    remoteCalls (process_media env m) =
      [Event.editCall ⟨"gpt-image-1", c, ⟨"image.png", png, "image/png"⟩,
        1, "1024x1024"⟩] := by
  have hpr : extractPrompt m = c := by simp [extractPrompt, pyOrStr, hc, hne]
  have hcall := remoteCalls_photo_edit env m p rest fp raw png hp
    (by rw [hpr]; exact hne) h1 h2 h3
  rwa [hpr] at hcall

/-- Witness for C9: caption `" "` on a photo yields an edit call whose
prompt is the unstripped `" "`. -/
theorem whitespace_caption_selects_edit_witness :
    extractPrompt msgSpaceCaptionSample = " " ∧ pyStrip " " = "" ∧
    remoteCalls (process_media stubEnv msgSpaceCaptionSample) =
      [Event.editCall ⟨"gpt-image-1", " ", ⟨"image.png", [9, 9], "image/png"⟩,
        1, "1024x1024"⟩] :=
  ⟨by decide, by decide,
   whitespace_caption_selects_edit stubEnv msgSpaceCaptionSample photoBig []
     " " "fileurl" [1, 2, 3] [9, 9] rfl rfl (by decide) (by decide) rfl rfl rfl⟩

/-- C10: the upload-photo status action is the first effect of every run,
before any validation; in particular the invalid empty request still
receives it, followed only by the guidance reply. -/
theorem status_indicator_always_first (env : Env) (m : TgMessage) :
    (process_media env m).head? = some (Event.sendChatAction "upload_photo") ∧
    (m.photo = [] → pyStrip (extractPrompt m) = "" →
      process_media env m =
        [Event.sendChatAction "upload_photo", Event.replyText NEED_INPUT_TEXT]) := by
  constructor
  · unfold process_media
    rcases ht : tryBodyRun env m (extractPrompt m) with ⟨evs, b⟩
    rcases b <;> simp [ht]
  · intro hp hpr
    unfold process_media tryBodyRun selectAndCall textBranch
    simp [hp, hpr]

/-- Witness for C10: the empty request against the all-failing
environment still opens with the status action. -/
theorem status_indicator_always_first_witness :
    (process_media failEnv msgEmptySample).head? =
      some (Event.sendChatAction "upload_photo") ∧
    process_media failEnv msgEmptySample =
      [Event.sendChatAction "upload_photo", Event.replyText NEED_INPUT_TEXT] :=
  ⟨(status_indicator_always_first failEnv msgEmptySample).1,
   (status_indicator_always_first failEnv msgEmptySample).2 rfl (by decide)⟩

/-- C3: whenever any step of the try block raises (download, decode,
remote call, or result fetch — all the cases in which `tryBodyRun` reports
a failure), the handler sends exactly one generic error reply, logs the
exception, sends no photo reply at all, and makes at most one remote call
(no retry). -/
theorem uniform_error_handling (env : Env) (m : TgMessage)
    (hf : (tryBodyRun env m (extractPrompt m)).2 = true) :
    (process_media env m).countP isGenericErrorReply = 1 ∧
    Event.logException "Generation failed" ∈ process_media env m ∧
    (∀ b, Event.replyPhoto b ∉ process_media env m) ∧
    (remoteCalls (process_media env m)).length ≤ 1 := by
  have hnr := tryBody_failed_noReply env m (extractPrompt m) hf
  rcases ht : tryBodyRun env m (extractPrompt m) with ⟨evs, b⟩
  rw [ht] at hf
  simp only at hf
  subst hf
  have hmem : ∀ e ∈ evs, isReplyEvent e = false := by
    intro e he
    have hall : ∀ e ∈ (tryBodyRun env m (extractPrompt m)).1,
        (!isReplyEvent e) = true := List.all_eq_true.mp hnr
    have := hall e (by rw [ht]; exact he)
    simpa using this
  have heq : process_media env m =
      Event.sendChatAction "upload_photo" ::
        (evs ++ [Event.logException "Generation failed",
                 Event.replyText ERROR_TEXT]) := by
    unfold process_media
    simp [ht]
  refine ⟨?_, ?_, ?_, process_media_remote_count env m⟩
  · have hz : evs.countP isGenericErrorReply = 0 := by
      rw [List.countP_eq_zero]
      intro a ha
      have := hmem a ha
      cases a <;> simp_all [isReplyEvent, isGenericErrorReply]
    rw [heq]
    simp [List.countP_cons, List.countP_append, hz, isGenericErrorReply]
  · rw [heq]; simp
  · intro b hb
    rw [heq] at hb
    simp only [List.mem_cons, List.mem_append, List.not_mem_nil, or_false] at hb
    rcases hb with hb | hb | hb | hb
    · exact Event.noConfusion hb
    · have := hmem _ hb
      simp [isReplyEvent] at this
    · exact Event.noConfusion hb
    · exact Event.noConfusion hb

/-- Witness for C3: the generate scenario against the all-failing
environment fails at the remote call and produces exactly the error
handling trace. -/
theorem uniform_error_handling_witness :
    (tryBodyRun failEnv msgGenerateSample (extractPrompt msgGenerateSample)).2 =
      true ∧
    (process_media failEnv msgGenerateSample).countP isGenericErrorReply = 1 ∧
    Event.logException "Generation failed" ∈ process_media failEnv msgGenerateSample :=
  ⟨by decide,
   (uniform_error_handling failEnv msgGenerateSample (by decide)).1,
   (uniform_error_handling failEnv msgGenerateSample (by decide)).2.1⟩

/-- C5: the prompt is `caption or text or ""` — the caption wins when
present and non-empty, else the text when present and non-empty, else the
empty string — and when a photo is attached, the variant handed to
`get_file` is `photo[-1]`, which under the ascending size order used by
Telegram is
the highest-resolution variant. -/
theorem prompt_and_photo_extraction (env : Env) (m : TgMessage) :
    (∀ c, m.caption = some c → c ≠ "" → extractPrompt m = c) ∧
    ((m.caption = none ∨ m.caption = some "") →
      ∀ s, m.text = some s → s ≠ "" → extractPrompt m = s) ∧
    ((m.caption = none ∨ m.caption = some "") →
      (m.text = none ∨ m.text = some "") → extractPrompt m = "") ∧
    (∀ p rest, m.photo = p :: rest →
      firstGetFile (process_media env m) = some (rest.getLastD p) ∧
      (m.photo.Pairwise (fun a b => a.pixels ≤ b.pixels) →
        ∀ q ∈ m.photo, q.pixels ≤ (rest.getLastD p).pixels)) := by
  refine ⟨?_, ?_, ?_, ?_⟩
  · intro c hc hne
    simp [extractPrompt, pyOrStr, hc, hne]
  · rintro (hc | hc) s hs hne <;> simp [extractPrompt, pyOrStr, hc, hs, hne]
  · rintro (hc | hc) (hs | hs) <;> simp [extractPrompt, pyOrStr, hc, hs]
  · intro p rest hp
    refine ⟨firstGetFile_photo env m p rest hp, ?_⟩
    intro hsort q hq
    rw [hp] at hsort hq
    exact getLastD_pixels_max rest p hsort q hq

/-- Witness for C5: caption precedence and best-variant selection at the
sample messages. -/
theorem prompt_and_photo_extraction_witness :
    extractPrompt msgEditSample = "make it blue" ∧
    extractPrompt msgGenerateSample = "a red fox" ∧
    firstGetFile (process_media stubEnv msgEditSample) = some photoBig ∧
    ∀ q ∈ msgEditSample.photo, q.pixels ≤ photoBig.pixels := by
  have h := prompt_and_photo_extraction stubEnv msgEditSample
  refine ⟨h.1 "make it blue" rfl (by decide), ?_, ?_, ?_⟩
  · exact (prompt_and_photo_extraction stubEnv msgGenerateSample).2.1
      (Or.inl rfl) "a red fox" rfl (by decide)
  · exact (h.2.2.2 photoSmall [photoBig] rfl).1
  · exact fun q hq => (h.2.2.2 photoSmall [photoBig] rfl).2 (by decide) q hq

/-- C6: every edit or variation call appearing in a trace carries the
synthetic file name `"image.png"` and content type `"image/png"`, and its
bytes are the output of the PIL decode/convert/re-encode pipeline applied
to a buffer downloaded over HTTP — never the raw download itself handed
over unprocessed. -/
theorem image_normalized_for_remote_calls (env : Env) (m : TgMessage)
    (ps : EditParams) (qs : VariationParams) :
    (Event.editCall ps ∈ process_media env m →
      ps.image.name = "image.png" ∧ ps.image.mime = "image/png" ∧
      ∃ p fp raw, env.getFile p = Except.ok fp ∧
        env.httpGet fp = Except.ok raw ∧
        env.pilToPngRGBA raw = Except.ok ps.image.content) ∧
    (Event.variationCall qs ∈ process_media env m →
      qs.image.name = "image.png" ∧ qs.image.mime = "image/png" ∧
      ∃ p fp raw, env.getFile p = Except.ok fp ∧
        env.httpGet fp = Except.ok raw ∧
        env.pilToPngRGBA raw = Except.ok qs.image.content) := by
  constructor
  · intro he
    have hwf := process_media_wf env m _ he
    simp only [eventWellFormed] at hwf
    exact ⟨hwf.2.2.2.1, hwf.2.2.2.2.1, hwf.2.2.2.2.2⟩
  · intro he
    have hwf := process_media_wf env m _ he
    simp only [eventWellFormed] at hwf
    exact ⟨hwf.2.2.2.1, hwf.2.2.2.2.1, hwf.2.2.2.2.2⟩

/-- Witness for C6: the edit call of the edit scenario carries the
normalized PNG file produced by the stub pipeline. -/
theorem image_normalized_for_remote_calls_witness :
    Event.editCall editParamsSample ∈ process_media stubEnv msgEditSample ∧
    editParamsSample.image.name = "image.png" ∧
    editParamsSample.image.mime = "image/png" ∧
    ∃ p fp raw, stubEnv.getFile p = Except.ok fp ∧
      stubEnv.httpGet fp = Except.ok raw ∧
      stubEnv.pilToPngRGBA raw = Except.ok editParamsSample.image.content :=
  ⟨by decide,
   (image_normalized_for_remote_calls stubEnv msgEditSample editParamsSample
      varParamsSample).1 (by decide)⟩

/-- C8: every remote generation call in any trace asks for exactly one
1024x1024 image, and every generate call additionally carries the
`"vivid"` style hint. -/
theorem remote_call_parameters (env : Env) (m : TgMessage)
    (ps : EditParams) (qs : VariationParams) (gs : GenerateParams) :
    (Event.editCall ps ∈ process_media env m →
      ps.n = 1 ∧ ps.size = "1024x1024") ∧
    (Event.variationCall qs ∈ process_media env m →
      qs.n = 1 ∧ qs.size = "1024x1024") ∧
    (Event.generateCall gs ∈ process_media env m →
      gs.n = 1 ∧ gs.size = "1024x1024" ∧ gs.style = "vivid") := by
  refine ⟨fun he => ?_, fun he => ?_, fun he => ?_⟩
  · have hwf := process_media_wf env m _ he
    simp only [eventWellFormed] at hwf
    exact ⟨hwf.2.1, hwf.2.2.1⟩
  · have hwf := process_media_wf env m _ he
    simp only [eventWellFormed] at hwf
    exact ⟨hwf.2.1, hwf.2.2.1⟩
  · have hwf := process_media_wf env m _ he
    simp only [eventWellFormed] at hwf
    exact ⟨hwf.2.1, hwf.2.2.1, hwf.2.2.2⟩

/-- Witness for C8: the generate call of the generate scenario requests
one 1024x1024 image in vivid style. -/
theorem remote_call_parameters_witness :
    Event.generateCall genParamsSample ∈ process_media stubEnv msgGenerateSample ∧
    genParamsSample.n = 1 ∧ genParamsSample.size = "1024x1024" ∧
    genParamsSample.style = "vivid" :=
  ⟨by decide,
   (remote_call_parameters stubEnv msgGenerateSample editParamsSample
      varParamsSample genParamsSample).2.2 (by decide)⟩

end AIDrawer
